import Mathlib

/-
Verification of the expression-evaluation pipeline of the calculator-mcp
repository (src/evaluator/mod.rs and src/evaluator/models/*).

The pipeline is embedded shallowly:
  * BigDecimal values are modelled as exact rationals (the spec's own
    decimal model in section 3: arbitrary-precision decimals with exact
    add/sub/mul, exact division, truncated remainder, integer power).
  * Rust strings are modelled as List Char; Unicode-only character
    classes (is_whitespace, is_alphanumeric) are modelled by their ASCII
    restrictions, which coincide with the Rust behaviour on the ASCII
    expression alphabet the evaluator accepts.
  * anyhow errors are modelled by the EvalError inductive, one
    constructor per distinct bail!/anyhow! site of the source.
-/

namespace Calculator

/-- Associativity tags, from src/evaluator/models/assoc.rs (re-exported by
models/mod.rs; the enum body is the one shown in the sibling generation of
the same file). -/
inductive Assoc where
  | Left
  | Right
deriving DecidableEq, Repr

/-- Operator tags, from src/evaluator/models/operator.rs. -/
inductive Operator where
  | Add
  | Sub
  | Mul
  | Div
  | Mod
  | Pow
  | UnarySub
deriving DecidableEq, Repr

/-- operator_precedence, from src/evaluator/models/operator.rs (u8 values,
modelled as Nat: no value comes near overflow). -/
def operator_precedence : Operator → Nat
  | Operator.Add => 1
  | Operator.Sub => 1
  | Operator.Mul => 2
  | Operator.Div => 2
  | Operator.Mod => 2
  | Operator.UnarySub => 3
  | Operator.Pow => 4

/-- operator_associativity, from src/evaluator/models/operator.rs. -/
def operator_associativity : Operator → Assoc
  | Operator.Pow => Assoc.Right
  | Operator.UnarySub => Assoc.Right
  | _ => Assoc.Left

/-- should_pop_operator, from src/evaluator/models/operator.rs. -/
def should_pop_operator (stack_op incoming : Operator) : Bool :=
  let stack_prec := operator_precedence stack_op
  let incoming_prec := operator_precedence incoming
  if incoming_prec < stack_prec then true
  else if stack_prec = incoming_prec then
    match operator_associativity incoming with
    | Assoc.Left => true
    | Assoc.Right => false
  else false

/-- is_op, from src/evaluator/models/operator.rs. -/
def is_op (c : Char) : Bool :=
  c == '+' || c == '-' || c == '*' || c == '/' || c == '%' || c == '^'

/-- From char for Operator, src/evaluator/models/operator.rs. The Rust
impl panics on any other character; callers guard with is_op, so the
fallthrough value is never produced. -/
def operator_from_char (c : Char) : Operator :=
  if c == '+' then Operator.Add
  else if c == '-' then Operator.Sub
  else if c == '*' then Operator.Mul
  else if c == '/' then Operator.Div
  else if c == '%' then Operator.Mod
  else Operator.Pow

/-- Math constant tags, from src/evaluator/models/math_const.rs. -/
inductive MathConst where
  | Pi
  | Tau
  | E
  | Phi
  | C
  | H
  | G
  | R
  | Na
  | Kb
  | Ec
deriving DecidableEq, Repr

/-- From MathConst for BigDecimal, src/evaluator/models/math_const.rs: the
fixed decimal literals, rendered as exact rationals. -/
def math_const_value : MathConst → ℚ
  | MathConst.Pi => 31415926535897932384626433832795028841971 / 10 ^ 40
  | MathConst.Tau => 62831853071795864769252867665590057683942 / 10 ^ 40
  | MathConst.E => 27182818284590452353602874713526624977572 / 10 ^ 40
  | MathConst.Phi => 16180339887498948482045868343656381177203 / 10 ^ 40
  | MathConst.C => 299792458
  | MathConst.H => 662607015 / 10 ^ 42
  | MathConst.G => 667430 / 10 ^ 16
  | MathConst.R => 8314462618 / 10 ^ 9
  | MathConst.Na => 602214076 * 10 ^ 15
  | MathConst.Kb => 1380649 / 10 ^ 29
  | MathConst.Ec => 1602176634 / 10 ^ 28

/-- Rust char::to_ascii_lowercase. -/
def char_ascii_lower (c : Char) : Char :=
  if 'A' ≤ c ∧ c ≤ 'Z' then Char.ofNat (c.toNat + 32) else c

/-- Rust str::to_ascii_lowercase. -/
def ascii_lower (s : String) : String :=
  String.mk (s.data.map char_ascii_lower)

/-- TryFrom str for MathConst, src/evaluator/models/math_const.rs: the
identifier is ASCII-lowercased, then matched against the constant table;
unknown names are an error (here: none). -/
def math_const_try_from (s : String) : Option MathConst :=
  let t := ascii_lower s
  if t = "pi" then some MathConst.Pi
  else if t = "tau" then some MathConst.Tau
  else if t = "e" then some MathConst.E
  else if t = "phi" then some MathConst.Phi
  else if t = "c" then some MathConst.C
  else if t = "h" then some MathConst.H
  else if t = "g" then some MathConst.G
  else if t = "r" then some MathConst.R
  else if t = "na" then some MathConst.Na
  else if t = "kb" then some MathConst.Kb
  else if t = "ec" then some MathConst.Ec
  else none

/-- Tokens, from src/evaluator/models/token.rs. -/
inductive Token where
  | Number (value : ℚ)
  | Ident (value : MathConst)
  | Op (op : Operator)
  | LParenthesis
  | RParenthesis
deriving DecidableEq, Repr

/-- is_paren, from src/evaluator/models/token.rs. -/
def is_paren (c : Char) : Bool := c == '(' || c == ')'

/-- to_paren, from src/evaluator/models/token.rs (panics on other input;
callers guard with is_paren). -/
def to_paren (c : Char) : Token :=
  if c == '(' then Token.LParenthesis else Token.RParenthesis

/-- Whether the accumulated literal already holds an exponent marker
(the num_str.contains closure in tokenize, src/evaluator/mod.rs). -/
def containsE (cs : List Char) : Bool :=
  cs.any (fun c => c == 'e' || c == 'E')

/-- The numeric-literal scan loop of tokenize (src/evaluator/mod.rs lines
22-43): starting from the already-consumed leading digit in acc, greedily
consume digits, decimal points, and an exponent marker when none has been
consumed yet; immediately after an exponent marker optionally consume one
sign character. Returns the accumulated literal and the unconsumed rest. -/
def scan_number : List Char → List Char → List Char × List Char
  | [], acc => (acc, [])
  | [c], acc =>
    if c.isDigit then (acc ++ [c], [])
    else if c == '.' then (acc ++ [c], [])
    else if (c == 'e' || c == 'E') && !containsE acc then (acc ++ [c], [])
    else (acc, [c])
  | c :: s :: rest2, acc =>
    if c.isDigit then scan_number (s :: rest2) (acc ++ [c])
    else if c == '.' then scan_number (s :: rest2) (acc ++ [c])
    else if (c == 'e' || c == 'E') && !containsE acc then
      if s == '+' || s == '-' then scan_number rest2 (acc ++ [c, s])
      else scan_number (s :: rest2) (acc ++ [c])
    else (acc, c :: s :: rest2)

/-- The identifier scan loop of tokenize (src/evaluator/mod.rs lines
47-57). Rust accepts Unicode-alphanumeric continuation characters;
modelled as ASCII alphanumeric, which coincides on ASCII input. -/
def scan_ident : List Char → List Char → List Char × List Char
  | [], acc => (acc, [])
  | c :: rest, acc =>
    if c.isAlphanum then scan_ident rest (acc ++ [c]) else (acc, c :: rest)

/-- Split a literal at the first exponent marker, as BigDecimal's FromStr
does. -/
def split_at_exp : List Char → List Char × Option (List Char)
  | [] => ([], none)
  | c :: rest =>
    if c == 'e' || c == 'E' then ([], some rest)
    else
      let r := split_at_exp rest
      (c :: r.1, r.2)

/-- Split a digit run at the first decimal point. -/
def split_at_dot : List Char → List Char × Option (List Char)
  | [] => ([], none)
  | c :: rest =>
    if c == '.' then ([], some rest)
    else
      let r := split_at_dot rest
      (c :: r.1, r.2)

def all_digits (cs : List Char) : Bool := cs.all Char.isDigit

def digits_to_nat (cs : List Char) : Nat :=
  cs.foldl (fun a c => 10 * a + (c.toNat - 48)) 0

/-- The mantissa part of BigDecimal's FromStr: digits with at most one
decimal point (the dot is removed and the remaining text must be a
non-empty digit string; a second dot makes the integer parse fail).
Returns the digit value and the scale (number of fractional digits). -/
def parse_base (cs : List Char) : Option (Nat × Nat) :=
  let r := split_at_dot cs
  match r.2 with
  | none => if all_digits r.1 && !r.1.isEmpty then some (digits_to_nat r.1, 0) else none
  | some frac =>
    if frac.any (fun c => c == '.') then none
    else
      let ds := r.1 ++ frac
      if all_digits ds && !ds.isEmpty then some (digits_to_nat ds, frac.length) else none

/-- The exponent part of BigDecimal's FromStr: an optional sign, then a
non-empty digit run, parsed as a 64-bit signed integer (out-of-range
exponents fail the parse). -/
def parse_exp (cs : List Char) : Option Int :=
  match cs with
  | '+' :: ds =>
    if all_digits ds && !ds.isEmpty && digits_to_nat ds ≤ 9223372036854775807 then
      some (digits_to_nat ds)
    else none
  | '-' :: ds =>
    if all_digits ds && !ds.isEmpty && digits_to_nat ds ≤ 9223372036854775808 then
      some (-(digits_to_nat ds : Int))
    else none
  | ds =>
    if all_digits ds && !ds.isEmpty && digits_to_nat ds ≤ 9223372036854775807 then
      some (digits_to_nat ds)
    else none

/-- num_str.parse for BigDecimal (the call at src/evaluator/mod.rs line
44), modelled from BigDecimal's FromStr over the exact-rational value
model. -/
def parse_big_decimal (cs : List Char) : Option ℚ :=
  let r := split_at_exp cs
  match parse_base r.1 with
  | none => none
  | some vs =>
    match r.2 with
    | none => some ((vs.1 : ℚ) / 10 ^ vs.2)
    | some ecs =>
      match parse_exp ecs with
      | none => none
      | some e =>
        if 0 ≤ e then some ((vs.1 : ℚ) * 10 ^ e.toNat / 10 ^ vs.2)
        else some ((vs.1 : ℚ) / (10 ^ (-e).toNat * 10 ^ vs.2))

/-- The unified error type: one constructor per distinct bail!/anyhow!
site of src/evaluator/mod.rs and models/math_const.rs. -/
inductive EvalError where
  | UnexpectedCharacter (c : Char)
  | InvalidNumber (text : String)
  | UnknownIdentifier (text : String)
  | UnexpectedOperator
  | MismatchedParenthesis
  | InsufficientOperands
  | DivisionByZero
  | ModuloByZero
  | NonIntegerExponent
  | ExponentOutOfRange
  | UnaryInBinaryContext
  | UnsupportedUnaryOperator
  | ParenthesisInRpn
  | MalformedExpression
deriving DecidableEq, Repr

/-- Pipeline stages, for the error classification of the entry point. -/
inductive Stage where
  | Lex
  | Parse
  | Arith
deriving DecidableEq, Repr

/-- Which stage of the pipeline each error constructor originates from. -/
def stage_of : EvalError → Stage
  | EvalError.UnexpectedCharacter _ => Stage.Lex
  | EvalError.InvalidNumber _ => Stage.Lex
  | EvalError.UnknownIdentifier _ => Stage.Lex
  | EvalError.UnexpectedOperator => Stage.Parse
  | EvalError.MismatchedParenthesis => Stage.Parse
  | _ => Stage.Arith

/-- tokenize, from src/evaluator/mod.rs lines 8-68, with an explicit fuel
argument to make the variable-length scans structurally recursive. Each
step consumes at least the head character, so fuel equal to the input
length (as supplied by the tokenize wrapper below) is never exhausted;
the fuel-exhausted branch is unreachable from the wrapper. -/
def tokenize_aux : Nat → List Char → Except EvalError (List Token)
  | _, [] => Except.ok []
  | 0, c :: _ => Except.error (EvalError.UnexpectedCharacter c)
  | fuel + 1, c :: rest =>
    if is_paren c then
      Except.map (fun ts => to_paren c :: ts) (tokenize_aux fuel rest)
    else if c.isWhitespace then
      tokenize_aux fuel rest
    else if is_op c then
      Except.map (fun ts => Token.Op (operator_from_char c) :: ts) (tokenize_aux fuel rest)
    else if c.isDigit then
      let r := scan_number rest [c]
      match parse_big_decimal r.1 with
      | some q => Except.map (fun ts => Token.Number q :: ts) (tokenize_aux fuel r.2)
      | none => Except.error (EvalError.InvalidNumber (String.mk r.1))
    else if c.isAlpha then
      let r := scan_ident rest [c]
      match math_const_try_from (String.mk r.1) with
      | some k => Except.map (fun ts => Token.Ident k :: ts) (tokenize_aux fuel r.2)
      | none => Except.error (EvalError.UnknownIdentifier (String.mk r.1))
    else
      Except.error (EvalError.UnexpectedCharacter c)

/-- tokenize entry point (src/evaluator/mod.rs line 8). -/
def tokenize (input : String) : Except EvalError (List Token) :=
  tokenize_aux input.data.length input.data

/-- The parser state of shunting_yard (src/evaluator/mod.rs lines 71-73):
output sequence, operator/parenthesis stack (top at head), and the
expect_operand flag. -/
structure SYState where
  output : List Token
  stack : List Token
  expect_operand : Bool
deriving DecidableEq, Repr

/-- The should_pop match on the stack top inside shunting_yard
(src/evaluator/mod.rs lines 92-96). -/
def should_pop_top (top : Token) (incoming : Operator) : Bool :=
  match top with
  | Token.Op stack_op => should_pop_operator stack_op incoming
  | _ => false

/-- The pop loop of the operator case of shunting_yard (src/evaluator/
mod.rs lines 91-105): pop stack entries to output while the top dictates
popping. -/
def pop_ops (output stack : List Token) (incoming : Operator) : List Token × List Token :=
  match stack with
  | [] => (output, [])
  | t :: rest =>
    if should_pop_top t incoming then pop_ops (output ++ [t]) rest incoming
    else (output, t :: rest)

/-- Push an operator after running the pop loop (src/evaluator/mod.rs
lines 91-106). -/
def push_operator (st : SYState) (current_op : Operator) : SYState :=
  let r := pop_ops st.output st.stack current_op
  { output := r.1, stack := Token.Op current_op :: r.2, expect_operand := true }

/-- The RightParenthesis loop of shunting_yard (src/evaluator/mod.rs
lines 114-124): pop entries, sending operators to output, until a left
parenthesis is found and discarded; none found is a failure (none). -/
def pop_until_lparen (output stack : List Token) : Option (List Token × List Token) :=
  match stack with
  | [] => none
  | Token.LParenthesis :: rest => some (output, rest)
  | Token.Op op :: rest => pop_until_lparen (output ++ [Token.Op op]) rest
  | _ :: rest => pop_until_lparen output rest

/-- One iteration of the token loop of shunting_yard (src/evaluator/
mod.rs lines 75-131). -/
def sy_step (st : SYState) (t : Token) : Except EvalError SYState :=
  match t with
  | Token.Number _ =>
    Except.ok { output := st.output ++ [t], stack := st.stack, expect_operand := false }
  | Token.Ident _ =>
    Except.ok { output := st.output ++ [t], stack := st.stack, expect_operand := false }
  | Token.Op op =>
    if st.expect_operand then
      if op = Operator.Sub then Except.ok (push_operator st Operator.UnarySub)
      else Except.error EvalError.UnexpectedOperator
    else Except.ok (push_operator st op)
  | Token.LParenthesis =>
    Except.ok { output := st.output, stack := Token.LParenthesis :: st.stack, expect_operand := true }
  | Token.RParenthesis =>
    match pop_until_lparen st.output st.stack with
    | some r => Except.ok { output := r.1, stack := r.2, expect_operand := false }
    | none => Except.error EvalError.MismatchedParenthesis

/-- The token loop of shunting_yard. -/
def sy_go : List Token → SYState → Except EvalError SYState
  | [], st => Except.ok st
  | t :: rest, st => Except.bind (sy_step st t) (sy_go rest)

/-- The final drain of shunting_yard (src/evaluator/mod.rs lines
133-138): pop all remaining stack entries to output; a remaining
parenthesis is a mismatched-parentheses failure. -/
def drain_stack (output stack : List Token) : Except EvalError (List Token) :=
  match stack with
  | [] => Except.ok output
  | Token.LParenthesis :: _ => Except.error EvalError.MismatchedParenthesis
  | Token.RParenthesis :: _ => Except.error EvalError.MismatchedParenthesis
  | t :: rest => drain_stack (output ++ [t]) rest

/-- shunting_yard, from src/evaluator/mod.rs lines 70-141. -/
def shunting_yard (tokens : List Token) : Except EvalError (List Token) :=
  Except.bind (sy_go tokens { output := [], stack := [], expect_operand := true })
    (fun st => drain_stack st.output st.stack)

/-- BigDecimal::is_integer: whether the value has a zero fractional
part. -/
def rat_is_integer (q : ℚ) : Bool := q.den == 1

/-- Truncation toward zero, as BigDecimal's with_scale(0) digit
truncation used by its remainder. -/
def rat_trunc (q : ℚ) : Int := q.num.tdiv (q.den : Int)

/-- The BigDecimal remainder (Rust % on BigDecimal): truncated-division
remainder, carrying the sign of the dividend. -/
def dec_mod (a b : ℚ) : ℚ := a - b * (rat_trunc (a / b) : ℚ)

/-- BigDecimal::powi over the exact-rational model: integer power, with a
negative exponent yielding the reciprocal power. -/
def rat_powi (a : ℚ) (n : Int) : ℚ :=
  if 0 ≤ n then a ^ n.toNat else (a ^ (-n).toNat)⁻¹

def i64_min : Int := -9223372036854775808

def i64_max : Int := 9223372036854775807

/-- apply_operator, from src/evaluator/mod.rs lines 181-211. The Pow arm
mirrors rhs.is_integer then rhs.to_i64: an integer-valued BigDecimal
converts to i64 exactly when its value lies in the i64 range (for an
integer rational, the value is its numerator). -/
def apply_operator (lhs rhs : ℚ) (op : Operator) : Except EvalError ℚ :=
  match op with
  | Operator.Add => Except.ok (lhs + rhs)
  | Operator.Sub => Except.ok (lhs - rhs)
  | Operator.Mul => Except.ok (lhs * rhs)
  | Operator.Div =>
    if rhs = 0 then Except.error EvalError.DivisionByZero
    else Except.ok (lhs / rhs)
  | Operator.Mod =>
    if rhs = 0 then Except.error EvalError.ModuloByZero
    else Except.ok (dec_mod lhs rhs)
  | Operator.Pow =>
    if !rat_is_integer rhs then Except.error EvalError.NonIntegerExponent
    else if rhs.num < i64_min ∨ i64_max < rhs.num then Except.error EvalError.ExponentOutOfRange
    else Except.ok (rat_powi lhs rhs.num)
  | Operator.UnarySub => Except.error EvalError.UnaryInBinaryContext

/-- apply_unary_operator, from src/evaluator/mod.rs lines 213-218. -/
def apply_unary_operator (value : ℚ) (op : Operator) : Except EvalError ℚ :=
  match op with
  | Operator.UnarySub => Except.ok (-value)
  | _ => Except.error EvalError.UnsupportedUnaryOperator

/-- One iteration of the token loop of eval_rpn (src/evaluator/mod.rs
lines 146-172), over the value stack (top at head). -/
def eval_rpn_step (stack : List ℚ) (t : Token) : Except EvalError (List ℚ) :=
  match t with
  | Token.Number n => Except.ok (n :: stack)
  | Token.Ident k => Except.ok (math_const_value k :: stack)
  | Token.Op op =>
    if op = Operator.UnarySub then
      match stack with
      | [] => Except.error EvalError.InsufficientOperands
      | v :: rest => Except.map (fun r => r :: rest) (apply_unary_operator v op)
    else
      match stack with
      | rhs :: lhs :: rest => Except.map (fun r => r :: rest) (apply_operator lhs rhs op)
      | _ => Except.error EvalError.InsufficientOperands
  | Token.LParenthesis => Except.error EvalError.ParenthesisInRpn
  | Token.RParenthesis => Except.error EvalError.ParenthesisInRpn

/-- The token loop of eval_rpn. -/
def eval_rpn_go : List Token → List ℚ → Except EvalError (List ℚ)
  | [], stack => Except.ok stack
  | t :: rest, stack => Except.bind (eval_rpn_step stack t) (eval_rpn_go rest)

/-- eval_rpn, from src/evaluator/mod.rs lines 143-179: run the stack
machine, then require exactly one remaining value. -/
def eval_rpn (tokens : List Token) : Except EvalError ℚ :=
  Except.bind (eval_rpn_go tokens []) (fun stack =>
    match stack with
    | [v] => Except.ok v
    | _ => Except.error EvalError.MalformedExpression)

/-- eval, from src/evaluator/mod.rs lines 220-224: tokenize, then
shunting_yard, then eval_rpn, short-circuiting on the first failure. -/
def eval (input : String) : Except EvalError ℚ :=
  Except.bind (tokenize input) (fun tokens =>
    Except.bind (shunting_yard tokens) eval_rpn)

/-- Two sequential calls of the entry point, state-free as in the source
(the evaluator reads no global state and writes none). -/
def eval_pair (s t : String) : Except EvalError ℚ × Except EvalError ℚ :=
  (eval s, eval t)

/-- Claim C1: evaluate resolves operators by the fixed precedence table
(Add/Sub=1, Mul/Div/Mod=2, UnaryNegate=3, Power=4) with Power and
UnaryNegate right-associative and all others left-associative, so that
evaluate of "3 + 4 * 5 / 2" is 13, of "10 % 3 * 2" is 2, of
"2 ^ (3 + 1)" is 16, and of "2^3 + 1" is 9. -/
theorem c1_precedence_table :
    operator_precedence Operator.Add = 1 ∧
    operator_precedence Operator.Sub = 1 ∧
    operator_precedence Operator.Mul = 2 ∧
    operator_precedence Operator.Div = 2 ∧
    operator_precedence Operator.Mod = 2 ∧
    operator_precedence Operator.UnarySub = 3 ∧
    operator_precedence Operator.Pow = 4 ∧
    operator_associativity Operator.Pow = Assoc.Right ∧
    operator_associativity Operator.UnarySub = Assoc.Right ∧
    operator_associativity Operator.Add = Assoc.Left ∧
    operator_associativity Operator.Sub = Assoc.Left ∧
    operator_associativity Operator.Mul = Assoc.Left ∧
    operator_associativity Operator.Div = Assoc.Left ∧
    operator_associativity Operator.Mod = Assoc.Left ∧
    eval "3 + 4 * 5 / 2" = Except.ok 13 ∧
    eval "10 % 3 * 2" = Except.ok 2 ∧
    eval "2 ^ (3 + 1)" = Except.ok 16 ∧
    eval "2^3 + 1" = Except.ok 9 := by
  refine ⟨rfl, rfl, rfl, rfl, rfl, rfl, rfl, rfl, rfl, rfl, rfl, rfl, rfl, rfl, ?_, ?_, ?_, ?_⟩
  all_goals with_unfolding_all rfl

/-- Claim C2: in the parser, whenever an operand is expected an incoming
operator must be Subtract, which is rewritten to UnaryNegate, and any
other operator in that position fails with the unexpected-operator parse
error; consequently evaluate of "-5 * 4" is -20, of "--5" is 5, of
"-(-3 * 2)" is 6, and of "-5 * -2" is 10. -/
theorem c2_unary_minus_rewrite :
    (∀ (out stk : List Token) (op : Operator),
      sy_step { output := out, stack := stk, expect_operand := true } (Token.Op op) =
        if op = Operator.Sub then
          Except.ok
            (push_operator { output := out, stack := stk, expect_operand := true }
              Operator.UnarySub)
        else Except.error EvalError.UnexpectedOperator) ∧
    eval "-5 * 4" = Except.ok (-20) ∧
    eval "--5" = Except.ok 5 ∧
    eval "-(-3 * 2)" = Except.ok 6 ∧
    eval "-5 * -2" = Except.ok 10 := by
  refine ⟨fun out stk op => rfl, ?_, ?_, ?_, ?_⟩
  all_goals with_unfolding_all rfl

/-- Claim C8: evaluate is deterministic and pure: equal inputs give equal
(bit-identical) results, including identical error classification, and a
pair of sequential calls returns exactly what each call returns in
isolation, in either order, so no call affects a later one. -/
theorem c8_deterministic_pure :
    ∀ s t : String,
      eval s = eval s ∧
      (s = t → eval s = eval t) ∧
      eval_pair s t = (eval s, eval t) ∧
      (eval_pair s t).2 = (eval_pair t s).1 :=
  fun s t => ⟨rfl, fun h => h ▸ rfl, rfl, rfl⟩

/-- Claim C8 witness: the determinism conjunct applied at a concrete
input. -/
theorem c8_deterministic_pure_witness :
    ("3 + 4" : String) = "3 + 4" ∧ eval "3 + 4" = eval "3 + 4" :=
  ⟨rfl, (c8_deterministic_pure "3 + 4" "3 + 4").2.1 rfl⟩

/-- Claim C9: a unary minus written directly as the right operand of
power without parentheses makes the parser pop the pending Power
operator (precedence 4 over UnaryNegate's 3) to the output before the
exponent operand exists, so evaluate of "2 ^ -3" fails with the
insufficient-operands arithmetic error, while the parenthesised
"2 ^ (-3)" succeeds. -/
theorem c9_power_unary_minus :
    should_pop_operator Operator.Pow Operator.UnarySub = true ∧
    operator_precedence Operator.Pow = 4 ∧
    operator_precedence Operator.UnarySub = 3 ∧
    shunting_yard [Token.Number 2, Token.Op Operator.Pow, Token.Op Operator.Sub] =
      Except.ok [Token.Number 2, Token.Op Operator.Pow, Token.Op Operator.UnarySub] ∧
    eval "2 ^ -3" = Except.error EvalError.InsufficientOperands ∧
    eval "2 ^ (-3)" = Except.ok (1 / 8) := by
  refine ⟨rfl, rfl, rfl, ?_, ?_, ?_⟩
  all_goals with_unfolding_all rfl

/-- Claim C10: the parser never rejects an operand token arriving when an
operand is not expected, and it accepts an empty token sequence; the
inputs "" and "2 3" pass tokenizing and parsing and fail only at the
final single-value stack check of the evaluator, with the
malformed-expression error. -/
theorem c10_operand_tokens_never_rejected :
    (∀ (st : SYState) (q : ℚ),
      sy_step st (Token.Number q) =
        Except.ok
          { output := st.output ++ [Token.Number q], stack := st.stack,
            expect_operand := false }) ∧
    (∀ (st : SYState) (k : MathConst),
      sy_step st (Token.Ident k) =
        Except.ok
          { output := st.output ++ [Token.Ident k], stack := st.stack,
            expect_operand := false }) ∧
    shunting_yard [] = Except.ok [] ∧
    tokenize "" = Except.ok [] ∧
    eval "" = Except.error EvalError.MalformedExpression ∧
    tokenize "2 3" = Except.ok [Token.Number 2, Token.Number 3] ∧
    shunting_yard [Token.Number 2, Token.Number 3] =
      Except.ok [Token.Number 2, Token.Number 3] ∧
    eval "2 3" = Except.error EvalError.MalformedExpression := by
  refine ⟨fun st q => rfl, fun st k => rfl, rfl, rfl, ?_, ?_, ?_, ?_⟩
  all_goals with_unfolding_all rfl

/-- Claim C3: binary arithmetic application follows the stated error
policy: division by a zero divisor fails with the division-by-zero
error, modulo by a zero divisor fails with the modulo-by-zero error,
power with a non-integer exponent fails with the non-integer-exponent
error, power with an integer exponent outside the 64-bit signed range
fails with the out-of-range error, and otherwise the exact result is
produced; in particular evaluate of "5 / 0", "5 % 0" and "2 ^ 0.5" fail
with the corresponding errors. -/
theorem c3_arith_error_policy :
    (∀ lhs rhs : ℚ, rhs = 0 →
      apply_operator lhs rhs Operator.Div = Except.error EvalError.DivisionByZero) ∧
    (∀ lhs rhs : ℚ, rhs = 0 →
      apply_operator lhs rhs Operator.Mod = Except.error EvalError.ModuloByZero) ∧
    (∀ lhs rhs : ℚ, rat_is_integer rhs = false →
      apply_operator lhs rhs Operator.Pow = Except.error EvalError.NonIntegerExponent) ∧
    (∀ lhs rhs : ℚ, rat_is_integer rhs = true →
      (rhs.num < i64_min ∨ i64_max < rhs.num) →
      apply_operator lhs rhs Operator.Pow = Except.error EvalError.ExponentOutOfRange) ∧
    (∀ lhs rhs : ℚ, rat_is_integer rhs = true →
      i64_min ≤ rhs.num → rhs.num ≤ i64_max →
      apply_operator lhs rhs Operator.Pow = Except.ok (rat_powi lhs rhs.num)) ∧
    (∀ lhs rhs : ℚ, rhs ≠ 0 →
      apply_operator lhs rhs Operator.Div = Except.ok (lhs / rhs)) ∧
    (∀ lhs rhs : ℚ, rhs ≠ 0 →
      apply_operator lhs rhs Operator.Mod = Except.ok (dec_mod lhs rhs)) ∧
    (∀ lhs rhs : ℚ, apply_operator lhs rhs Operator.Add = Except.ok (lhs + rhs)) ∧
    (∀ lhs rhs : ℚ, apply_operator lhs rhs Operator.Sub = Except.ok (lhs - rhs)) ∧
    (∀ lhs rhs : ℚ, apply_operator lhs rhs Operator.Mul = Except.ok (lhs * rhs)) ∧
    eval "5 / 0" = Except.error EvalError.DivisionByZero ∧
    eval "5 % 0" = Except.error EvalError.ModuloByZero ∧
    eval "2 ^ 0.5" = Except.error EvalError.NonIntegerExponent := by
  refine ⟨?_, ?_, ?_, ?_, ?_, ?_, ?_, fun l r => rfl, fun l r => rfl, fun l r => rfl,
    ?_, ?_, ?_⟩
  case _ => intro l r h; simp [apply_operator, h]
  case _ => intro l r h; simp [apply_operator, h]
  case _ => intro l r h; simp [apply_operator, h]
  case _ =>
    intro l r h1 h2
    simp only [apply_operator, h1, Bool.not_true, Bool.false_eq_true, if_false]
    rw [if_pos h2]
  case _ =>
    intro l r h1 h2 h3
    simp only [apply_operator, h1, Bool.not_true, Bool.false_eq_true, if_false]
    rw [if_neg]
    push_neg
    exact ⟨h2, h3⟩
  case _ => intro l r h; simp [apply_operator, h]
  case _ => intro l r h; simp [apply_operator, h]
  all_goals with_unfolding_all rfl

/-- Claim C3 witness: the division-by-zero, modulo-by-zero and
non-integer-exponent conjuncts applied at concrete operands, with their
hypotheses discharged there. -/
theorem c3_arith_error_policy_witness :
    ((0 : ℚ) = 0 ∧
      apply_operator 5 0 Operator.Div = Except.error EvalError.DivisionByZero) ∧
    ((0 : ℚ) = 0 ∧
      apply_operator 5 0 Operator.Mod = Except.error EvalError.ModuloByZero) ∧
    (rat_is_integer (1 / 2 : ℚ) = false ∧
      apply_operator 2 (1 / 2) Operator.Pow = Except.error EvalError.NonIntegerExponent) ∧
    (rat_is_integer (3 : ℚ) = true ∧ i64_min ≤ (3 : ℚ).num ∧ (3 : ℚ).num ≤ i64_max ∧
      apply_operator 2 3 Operator.Pow = Except.ok (rat_powi 2 (3 : ℚ).num)) :=
  ⟨⟨rfl, c3_arith_error_policy.1 5 0 rfl⟩,
   ⟨rfl, c3_arith_error_policy.2.1 5 0 rfl⟩,
   ⟨by with_unfolding_all rfl,
    c3_arith_error_policy.2.2.1 2 (1 / 2) (by with_unfolding_all rfl)⟩,
   ⟨by with_unfolding_all rfl, by decide, by decide,
    c3_arith_error_policy.2.2.2.2.1 2 3 (by with_unfolding_all rfl)
      (by decide) (by decide)⟩⟩

/-- Claim C4 counterexample: the claim says the numeric-literal scan
accepts at most one decimal point; on the input text "1.2.3" the scan
(starting at the digit 1, with ".2.3" remaining) accepts both decimal
points, consuming the whole run. -/
theorem c4_decimal_point_counterexample :
    (scan_number ['.', '2', '.', '3'] ['1']).1 = ['1', '.', '2', '.', '3'] ∧
    ¬ ((scan_number ['.', '2', '.', '3'] ['1']).1.count '.' ≤ 1) := by
  constructor
  · rfl
  · decide

/-- Claim C4 as amended: the numeric-literal scan starting at an ASCII
digit greedily accepts further digits, ANY number of decimal points, and
at most one case-insensitive exponent marker e/E, with one optional sign
character accepted only immediately after the exponent marker; a run
holding more than one decimal point is consumed whole and then fails
numeric parsing with the invalid-number lex error; evaluate of "1.2e3"
is 1200 and of "4.2e-2" is 0.042. -/
theorem c4_numeric_scan_amended :
    (∀ (acc rest : List Char) (c : Char), c.isDigit = true →
      scan_number (c :: rest) acc = scan_number rest (acc ++ [c])) ∧
    (∀ (acc rest : List Char),
      scan_number ('.' :: rest) acc = scan_number rest (acc ++ ['.'])) ∧
    (∀ (acc rest : List Char) (c : Char), (c == 'e' || c == 'E') = true →
      containsE acc = true →
      scan_number (c :: rest) acc = (acc, c :: rest)) ∧
    (∀ (acc rest : List Char) (c s : Char), (c == 'e' || c == 'E') = true →
      containsE acc = false → (s == '+' || s == '-') = true →
      scan_number (c :: s :: rest) acc = scan_number rest (acc ++ [c, s])) ∧
    (∀ (acc rest : List Char) (c : Char), c.isDigit = false → (c == '.') = false →
      ((c == 'e' || c == 'E') && !containsE acc) = false →
      scan_number (c :: rest) acc = (acc, c :: rest)) ∧
    eval "1.2.3" = Except.error (EvalError.InvalidNumber "1.2.3") ∧
    eval "1.2e3" = Except.ok 1200 ∧
    eval "4.2e-2" = Except.ok (42 / 1000) := by
  refine ⟨?_, ?_, ?_, ?_, ?_, ?_, ?_, ?_⟩
  case _ =>
    intro acc rest c h
    cases rest <;> simp [scan_number, h]
  case _ =>
    intro acc rest
    cases rest <;> rfl
  case _ =>
    intro acc rest c h1 h2
    have hd : c.isDigit = false := by
      rcases Bool.or_eq_true_iff.mp h1 with h | h
      · rw [eq_of_beq h]; rfl
      · rw [eq_of_beq h]; rfl
    have hdot : (c == '.') = false := by
      rcases Bool.or_eq_true_iff.mp h1 with h | h
      · rw [eq_of_beq h]; rfl
      · rw [eq_of_beq h]; rfl
    cases rest <;> simp [scan_number, hd, hdot, h1, h2]
  case _ =>
    intro acc rest c s h1 h2 h3
    have hd : c.isDigit = false := by
      rcases Bool.or_eq_true_iff.mp h1 with h | h
      · rw [eq_of_beq h]; rfl
      · rw [eq_of_beq h]; rfl
    have hdot : (c == '.') = false := by
      rcases Bool.or_eq_true_iff.mp h1 with h | h
      · rw [eq_of_beq h]; rfl
      · rw [eq_of_beq h]; rfl
    simp [scan_number, hd, hdot, h1, h2, h3]
  case _ =>
    intro acc rest c h1 h2 h3
    cases rest <;> simp [scan_number, h1, h2, h3]
  all_goals with_unfolding_all rfl

/-- Claim C4 witness: the digit, decimal-point and single-exponent
conjuncts of the amended claim applied at concrete inputs, with their
hypotheses discharged there. -/
theorem c4_numeric_scan_amended_witness :
    (('5').isDigit = true ∧
      scan_number ['5'] [] = scan_number [] ([] ++ ['5'])) ∧
    (('e' == 'e' || 'e' == 'E') = true ∧ containsE ['1', 'e', '2'] = true ∧
      scan_number ['e', '4'] ['1', 'e', '2'] = (['1', 'e', '2'], ['e', '4'])) :=
  ⟨⟨rfl, c4_numeric_scan_amended.1 [] [] '5' rfl⟩,
   ⟨rfl, rfl, c4_numeric_scan_amended.2.2.1 ['1', 'e', '2'] ['4'] 'e' rfl rfl⟩⟩

/-- Claim C5: every identifier run (ASCII alphabetic start, then
alphanumeric continuation) is lowercase-normalized and resolved against
the fixed constant table: known names evaluate exactly and
case-insensitively to their fixed decimal literals, and any unresolved
identifier fails with the unknown-identifier lex error. -/
theorem c5_constant_resolution :
    (∀ (fuel : Nat) (c : Char) (rest : List Char),
      is_paren c = false → c.isWhitespace = false → is_op c = false →
      c.isDigit = false → c.isAlpha = true →
      math_const_try_from (String.mk (scan_ident rest [c]).1) = none →
      tokenize_aux (fuel + 1) (c :: rest) =
        Except.error (EvalError.UnknownIdentifier (String.mk (scan_ident rest [c]).1))) ∧
    (∀ (fuel : Nat) (c : Char) (rest : List Char) (k : MathConst),
      is_paren c = false → c.isWhitespace = false → is_op c = false →
      c.isDigit = false → c.isAlpha = true →
      math_const_try_from (String.mk (scan_ident rest [c]).1) = some k →
      tokenize_aux (fuel + 1) (c :: rest) =
        Except.map (fun ts => Token.Ident k :: ts)
          (tokenize_aux fuel (scan_ident rest [c]).2)) ∧
    math_const_try_from "pi" = some MathConst.Pi ∧
    math_const_try_from "PI" = some MathConst.Pi ∧
    math_const_try_from "Pi" = some MathConst.Pi ∧
    math_const_try_from "foo" = none ∧
    eval "pi" = Except.ok (math_const_value MathConst.Pi) ∧
    eval "PI" = Except.ok (math_const_value MathConst.Pi) ∧
    eval "tau / pi" = Except.ok 2 ∧
    eval "foo" = Except.error (EvalError.UnknownIdentifier "foo") := by
  refine ⟨?_, ?_, rfl, rfl, rfl, rfl, ?_, ?_, ?_, ?_⟩
  case _ =>
    intro fuel c rest h1 h2 h3 h4 h5 h6
    simp [tokenize_aux, h1, h2, h3, h4, h5, h6]
  case _ =>
    intro fuel c rest k h1 h2 h3 h4 h5 h6
    simp [tokenize_aux, h1, h2, h3, h4, h5, h6]
  all_goals with_unfolding_all rfl

/-- Claim C5 witness: the unresolved-identifier conjunct applied at the
one-character identifier z, with every hypothesis discharged there. -/
theorem c5_constant_resolution_witness :
    (is_paren 'z' = false ∧ ('z').isWhitespace = false ∧ is_op 'z' = false ∧
      ('z').isDigit = false ∧ ('z').isAlpha = true ∧
      math_const_try_from (String.mk (scan_ident [] ['z']).1) = none) ∧
    tokenize_aux 1 ['z'] =
      Except.error (EvalError.UnknownIdentifier (String.mk (scan_ident [] ['z']).1)) :=
  ⟨⟨rfl, rfl, rfl, rfl, rfl, rfl⟩,
   c5_constant_resolution.1 0 'z' [] rfl rfl rfl rfl rfl rfl⟩

/-- Popping for a right parenthesis fails exactly when no left
parenthesis sits anywhere on the stack (src/evaluator/mod.rs lines
113-127). -/
theorem pop_until_lparen_eq_none (stk : List Token) :
    ∀ out, Token.LParenthesis ∉ stk → pop_until_lparen out stk = none := by
  induction stk with
  | nil => intro out _; rfl
  | cons t rest ih =>
    intro out h
    have ht : t ≠ Token.LParenthesis := fun he => h (he ▸ List.mem_cons_self t rest)
    have hr : Token.LParenthesis ∉ rest := fun hm => h (List.mem_cons_of_mem t hm)
    cases t with
    | LParenthesis => exact absurd rfl ht
    | Op op => simpa [pop_until_lparen] using ih _ hr
    | Number q => simpa [pop_until_lparen] using ih _ hr
    | Ident k => simpa [pop_until_lparen] using ih _ hr
    | RParenthesis => simpa [pop_until_lparen] using ih _ hr

/-- The final drain fails with the mismatched-parentheses error whenever
a parenthesis is left on the stack (src/evaluator/mod.rs lines
133-138). -/
theorem drain_stack_paren_error (stk : List Token) :
    ∀ out, Token.LParenthesis ∈ stk ∨ Token.RParenthesis ∈ stk →
      drain_stack out stk = Except.error EvalError.MismatchedParenthesis := by
  induction stk with
  | nil => intro out h; rcases h with h | h <;> simp at h
  | cons t rest ih =>
    intro out h
    cases t with
    | LParenthesis => rfl
    | RParenthesis => rfl
    | Op op =>
      have hr : Token.LParenthesis ∈ rest ∨ Token.RParenthesis ∈ rest := by
        rcases h with h | h <;> [left; right] <;> simpa using h
      simpa [drain_stack] using ih _ hr
    | Number q =>
      have hr : Token.LParenthesis ∈ rest ∨ Token.RParenthesis ∈ rest := by
        rcases h with h | h <;> [left; right] <;> simpa using h
      simpa [drain_stack] using ih _ hr
    | Ident k =>
      have hr : Token.LParenthesis ∈ rest ∨ Token.RParenthesis ∈ rest := by
        rcases h with h | h <;> [left; right] <;> simpa using h
      simpa [drain_stack] using ih _ hr

/-- Claim C6: unbalanced parentheses always fail with the
mismatched-parenthesis parse error: a closing parenthesis with no
matching open parenthesis on the stack fails immediately, and any
parenthesis remaining on the operator stack after all tokens are
consumed also fails; in particular both evaluate of "(3 + 4" and of
"3 + 4)" fail with this error. -/
theorem c6_mismatched_parentheses :
    (∀ (out stk : List Token), Token.LParenthesis ∉ stk →
      pop_until_lparen out stk = none) ∧
    (∀ st : SYState, Token.LParenthesis ∉ st.stack →
      sy_step st Token.RParenthesis = Except.error EvalError.MismatchedParenthesis) ∧
    (∀ (out stk : List Token), Token.LParenthesis ∈ stk ∨ Token.RParenthesis ∈ stk →
      drain_stack out stk = Except.error EvalError.MismatchedParenthesis) ∧
    (∀ (tokens : List Token) (st : SYState),
      sy_go tokens { output := [], stack := [], expect_operand := true } = Except.ok st →
      Token.LParenthesis ∈ st.stack ∨ Token.RParenthesis ∈ st.stack →
      shunting_yard tokens = Except.error EvalError.MismatchedParenthesis) ∧
    eval "(3 + 4" = Except.error EvalError.MismatchedParenthesis ∧
    eval "3 + 4)" = Except.error EvalError.MismatchedParenthesis := by
  refine ⟨fun out stk h => pop_until_lparen_eq_none stk out h, ?_, ?_, ?_, ?_, ?_⟩
  case _ =>
    intro st h
    simp [sy_step, pop_until_lparen_eq_none st.stack st.output h]
  case _ => exact fun out stk h => drain_stack_paren_error stk out h
  case _ =>
    intro tokens st hgo h
    simp [shunting_yard, hgo, Except.bind, drain_stack_paren_error st.stack st.output h]
  all_goals with_unfolding_all rfl

/-- Claim C6 witness: the immediate-failure conjunct applied to the empty
stack, with its hypothesis discharged there. -/
theorem c6_mismatched_parentheses_witness :
    Token.LParenthesis ∉ (SYState.mk [] [] true).stack ∧
    sy_step (SYState.mk [] [] true) Token.RParenthesis =
      Except.error EvalError.MismatchedParenthesis :=
  ⟨by simp, c6_mismatched_parentheses.2.1 (SYState.mk [] [] true) (by simp)⟩

/-- A mapped Except that fails does so with the error of the mapped
computation. -/
theorem except_map_error {ε α β : Type} (f : α → β) (x : Except ε α) (e : ε)
    (h : Except.map f x = Except.error e) : x = Except.error e := by
  cases x <;> simp_all [Except.map]

/-- Every tokenizer failure is a lexing-stage error. -/
theorem tokenize_aux_error_stage :
    ∀ (fuel : Nat) (cs : List Char) (e : EvalError),
      tokenize_aux fuel cs = Except.error e → stage_of e = Stage.Lex := by
  intro fuel
  induction fuel with
  | zero =>
    intro cs e h
    cases cs with
    | nil => simp [tokenize_aux] at h
    | cons c rest =>
      simp only [tokenize_aux] at h
      injection h with h2
      subst h2
      rfl
  | succ n ih =>
    intro cs e h
    cases cs with
    | nil => simp [tokenize_aux] at h
    | cons c rest =>
      simp only [tokenize_aux] at h
      split at h
      · exact ih rest e (except_map_error _ _ _ h)
      · split at h
        · exact ih rest e h
        · split at h
          · exact ih rest e (except_map_error _ _ _ h)
          · split at h
            · split at h
              · exact ih _ e (except_map_error _ _ _ h)
              · injection h with h2
                subst h2
                rfl
            · split at h
              · split at h
                · exact ih _ e (except_map_error _ _ _ h)
                · injection h with h2
                  subst h2
                  rfl
              · injection h with h2
                subst h2
                rfl

/-- Every parser-step failure is a parsing-stage error. -/
theorem sy_step_error_stage (st : SYState) (t : Token) (e : EvalError)
    (h : sy_step st t = Except.error e) : stage_of e = Stage.Parse := by
  cases t with
  | Number q => simp [sy_step] at h
  | Ident k => simp [sy_step] at h
  | LParenthesis => simp [sy_step] at h
  | Op op =>
    simp only [sy_step] at h
    split at h
    · split at h
      · simp at h
      · injection h with h2
        subst h2
        rfl
    · simp at h
  | RParenthesis =>
    simp only [sy_step] at h
    split at h
    · simp at h
    · injection h with h2
      subst h2
      rfl

/-- Every failure of the parser's token loop is a parsing-stage error. -/
theorem sy_go_error_stage :
    ∀ (tokens : List Token) (st : SYState) (e : EvalError),
      sy_go tokens st = Except.error e → stage_of e = Stage.Parse := by
  intro tokens
  induction tokens with
  | nil => intro st e h; simp [sy_go] at h
  | cons t rest ih =>
    intro st e h
    simp only [sy_go] at h
    cases hs : sy_step st t with
    | ok st2 =>
      rw [hs] at h
      simp only [Except.bind] at h
      exact ih st2 e h
    | error e2 =>
      rw [hs] at h
      simp only [Except.bind] at h
      injection h with h2
      subst h2
      exact sy_step_error_stage st t _ hs

/-- Every failure of the final drain is a parsing-stage error. -/
theorem drain_stack_error_stage :
    ∀ (stk out : List Token) (e : EvalError),
      drain_stack out stk = Except.error e → stage_of e = Stage.Parse := by
  intro stk
  induction stk with
  | nil => intro out e h; simp [drain_stack] at h
  | cons t rest ih =>
    intro out e h
    cases t with
    | LParenthesis =>
      simp only [drain_stack] at h
      injection h with h2
      subst h2
      rfl
    | RParenthesis =>
      simp only [drain_stack] at h
      injection h with h2
      subst h2
      rfl
    | Number q => exact ih _ e h
    | Ident k => exact ih _ e h
    | Op op => exact ih _ e h

/-- Every parser failure is a parsing-stage error. -/
theorem shunting_yard_error_stage (tokens : List Token) (e : EvalError)
    (h : shunting_yard tokens = Except.error e) : stage_of e = Stage.Parse := by
  simp only [shunting_yard] at h
  cases hg : sy_go tokens { output := [], stack := [], expect_operand := true } with
  | ok st =>
    rw [hg] at h
    simp only [Except.bind] at h
    exact drain_stack_error_stage st.stack st.output e h
  | error e2 =>
    rw [hg] at h
    simp only [Except.bind] at h
    injection h with h2
    subst h2
    exact sy_go_error_stage tokens _ _ hg

/-- Every binary-application failure is an arithmetic-stage error. -/
theorem apply_operator_error_stage (lhs rhs : ℚ) (op : Operator) (e : EvalError)
    (h : apply_operator lhs rhs op = Except.error e) : stage_of e = Stage.Arith := by
  cases op <;> simp only [apply_operator] at h
  case Add => simp at h
  case Sub => simp at h
  case Mul => simp at h
  case UnarySub =>
    injection h with h2
    subst h2
    rfl
  case Div =>
    split at h
    · injection h with h2; subst h2; rfl
    · simp at h
  case Mod =>
    split at h
    · injection h with h2; subst h2; rfl
    · simp at h
  case Pow =>
    split at h
    · injection h with h2; subst h2; rfl
    · split at h
      · injection h with h2; subst h2; rfl
      · simp at h

/-- Every unary-application failure is an arithmetic-stage error. -/
theorem apply_unary_operator_error_stage (v : ℚ) (op : Operator) (e : EvalError)
    (h : apply_unary_operator v op = Except.error e) : stage_of e = Stage.Arith := by
  cases op <;> simp only [apply_unary_operator] at h
  case UnarySub => simp at h
  all_goals (injection h with h2; subst h2; rfl)

/-- Every stack-machine step failure is an arithmetic-stage error. -/
theorem eval_rpn_step_error_stage (stack : List ℚ) (t : Token) (e : EvalError)
    (h : eval_rpn_step stack t = Except.error e) : stage_of e = Stage.Arith := by
  cases t with
  | Number q => simp [eval_rpn_step] at h
  | Ident k => simp [eval_rpn_step] at h
  | LParenthesis =>
    simp only [eval_rpn_step] at h
    injection h with h2
    subst h2
    rfl
  | RParenthesis =>
    simp only [eval_rpn_step] at h
    injection h with h2
    subst h2
    rfl
  | Op op =>
    simp only [eval_rpn_step] at h
    split at h
    · split at h
      · injection h with h2; subst h2; rfl
      · exact apply_unary_operator_error_stage _ _ e (except_map_error _ _ _ h)
    · split at h
      · exact apply_operator_error_stage _ _ _ e (except_map_error _ _ _ h)
      · injection h with h2; subst h2; rfl

/-- Every failure of the stack-machine loop is an arithmetic-stage
error. -/
theorem eval_rpn_go_error_stage :
    ∀ (tokens : List Token) (stack : List ℚ) (e : EvalError),
      eval_rpn_go tokens stack = Except.error e → stage_of e = Stage.Arith := by
  intro tokens
  induction tokens with
  | nil => intro stack e h; simp [eval_rpn_go] at h
  | cons t rest ih =>
    intro stack e h
    simp only [eval_rpn_go] at h
    cases hs : eval_rpn_step stack t with
    | ok stack2 =>
      rw [hs] at h
      simp only [Except.bind] at h
      exact ih stack2 e h
    | error e2 =>
      rw [hs] at h
      simp only [Except.bind] at h
      injection h with h2
      subst h2
      exact eval_rpn_step_error_stage stack t _ hs

/-- Every evaluator failure is an arithmetic-stage error. -/
theorem eval_rpn_error_stage (tokens : List Token) (e : EvalError)
    (h : eval_rpn tokens = Except.error e) : stage_of e = Stage.Arith := by
  simp only [eval_rpn] at h
  cases hg : eval_rpn_go tokens [] with
  | ok stack =>
    rw [hg] at h
    simp only [Except.bind] at h
    split at h
    · simp at h
    · injection h with h2
      subst h2
      rfl
  | error e2 =>
    rw [hg] at h
    simp only [Except.bind] at h
    injection h with h2
    subst h2
    exact eval_rpn_go_error_stage tokens [] _ hg

/-- Claim C7: evaluate is exactly the composition tokenize, then
to_postfix (shunting_yard), then eval_postfix (eval_rpn),
short-circuiting on the first stage that fails, and the unified EvalError
identifies which stage failed (every constructor classifies to exactly
one stage) and why (the constructor itself, with its payload). -/
theorem c7_pipeline_composition :
    (∀ s : String,
      eval s =
        Except.bind (tokenize s) (fun ts => Except.bind (shunting_yard ts) eval_rpn)) ∧
    (∀ (s : String) (e : EvalError), tokenize s = Except.error e →
      stage_of e = Stage.Lex) ∧
    (∀ (ts : List Token) (e : EvalError), shunting_yard ts = Except.error e →
      stage_of e = Stage.Parse) ∧
    (∀ (ts : List Token) (e : EvalError), eval_rpn ts = Except.error e →
      stage_of e = Stage.Arith) ∧
    (∀ (s : String) (e : EvalError), tokenize s = Except.error e →
      eval s = Except.error e) ∧
    (∀ (s : String) (ts : List Token) (e : EvalError), tokenize s = Except.ok ts →
      shunting_yard ts = Except.error e → eval s = Except.error e) ∧
    (∀ (s : String) (ts rpn : List Token), tokenize s = Except.ok ts →
      shunting_yard ts = Except.ok rpn → eval s = eval_rpn rpn) := by
  refine ⟨fun s => rfl, ?_, ?_, ?_, ?_, ?_, ?_⟩
  case _ => exact fun s e h => tokenize_aux_error_stage _ _ e h
  case _ => exact fun ts e h => shunting_yard_error_stage ts e h
  case _ => exact fun ts e h => eval_rpn_error_stage ts e h
  case _ => intro s e h; simp [eval, h, Except.bind]
  case _ => intro s ts e h1 h2; simp [eval, h1, h2, Except.bind]
  case _ => intro s ts rpn h1 h2; simp [eval, h1, h2, Except.bind]

/-- Claim C7 witness: the lex-stage classification and short-circuit
conjuncts applied at a concrete failing input, with their hypotheses
discharged there. -/
theorem c7_pipeline_composition_witness :
    tokenize "#" = Except.error (EvalError.UnexpectedCharacter '#') ∧
    stage_of (EvalError.UnexpectedCharacter '#') = Stage.Lex ∧
    eval "#" = Except.error (EvalError.UnexpectedCharacter '#') :=
  ⟨rfl,
   c7_pipeline_composition.2.1 "#" (EvalError.UnexpectedCharacter '#') rfl,
   c7_pipeline_composition.2.2.2.2.1 "#" (EvalError.UnexpectedCharacter '#') rfl⟩

end Calculator
